import Mathlib

/-!
Verification of the cannon-wrapper repository: a pybind11 binding layer over
the Canon EDSDK. The development embeds, shallowly and faithfully:

* src/bindings.cpp — the stubbed binding variant: its CameraModel, Observable,
  Processor and the fifteen camera command classes (namespace Bindings);
* src/edsdk/include/GetPropertyCommand.h — the vendor command that marshals a
  camera property through the closed SDK (namespace Vendor); the SDK entry
  points EdsGetPropertySize and EdsGetPropertyData are opaque, so they are
  represented by an arbitrary oracle (structure Vendor.Sdk), and the vendor
  CameraModel property store, whose header is not among the source files, is
  modelled from the specification text;
* src/edsdk/src/EvfAFMode.cpp — the update handler of the CEvfAFMode combo box.

Machine integers (EdsUInt32, uintptr_t) are Nat; the only place where the
word width matters is the uintptr round trip, made explicit with mod 2 ^ 64.
-/

set_option linter.unusedVariables false

namespace CannonWrapper

/-! ## Constants from the vendor header EDSDK.h
The numeric values are those of the vendor header that every source file
includes; only their distinctness matters to the theorems below. -/

def EDS_ERR_OK : Nat := 0x00000000

def EDS_ERR_DEVICE_BUSY : Nat := 0x00000081

def EDS_ERRORID_MASK : Nat := 0x0000ffff

def kEdsPropID_Unknown : Nat := 0x0000ffff

def kEdsPropID_ImageQuality : Nat := 0x00000100

def kEdsPropID_AEMode : Nat := 0x00000400

def kEdsPropID_ISOSpeed : Nat := 0x00000402

def kEdsPropID_MeteringMode : Nat := 0x00000403

def kEdsPropID_Av : Nat := 0x00000405

def kEdsPropID_Tv : Nat := 0x00000406

def kEdsPropID_ExposureCompensation : Nat := 0x00000407

def kEdsPropID_AEModeSelect : Nat := 0x00000436

def kEdsPropID_Evf_AFMode : Nat := 0x0000050e

def kEdsDataType_String : Nat := 2

def kEdsDataType_UInt32 : Nat := 9

def kEdsDataType_FocusInfo : Nat := 101

/-- WM_APP of the Windows headers; EvfAFMode.cpp builds its two private
messages from it. -/
def WM_APP : Nat := 0x8000

def WM_USER_PROPERTY_CHANGED : Nat := WM_APP + 1

def WM_USER_PROPERTYDESC_CHANGED : Nat := WM_APP + 2

/-! ## Shared SDK value structs (EdsPoint, EdsSize, EdsRect, EdsCapacity) -/

structure EdsPoint where
  x : Int
  y : Int

structure EdsSize where
  width : Int
  height : Int

structure EdsRect where
  point : EdsPoint
  size : EdsSize

structure EdsCapacity where
  numberOfFreeClusters : Nat
  bytesPerSector : Nat
  reset : Bool

/-- CameraEvent of bindings.cpp and of the vendor CameraEvent.h: an event name
and a pointer argument; the argument, when present, is the word it points at
(a property ID or an error code). -/
structure CameraEvent where
  name : String
  arg : Option Nat

/-! ## The stubbed binding variant, src/bindings.cpp -/

namespace Bindings

/-- Observable of bindings.cpp lines 23 to 28: all three member functions have
empty bodies. Observers are identified by a word (the pointer passed in);
notifyObservers yields the list of update invocations it performs, each an
observer paired with the event argument. -/
structure Observable

def Observable.addObserver (o : Observable) (observer : Nat) : Observable := o

def Observable.removeObserver (o : Observable) (observer : Nat) : Observable := o

def Observable.notifyObservers (o : Observable) (event : Option Nat) :
    List (Nat × Option Nat) := []

/-- CameraModel of bindings.cpp lines 31 to 78: the only member datum is the
camera handle; every other member function is a stub. -/
structure CameraModel where
  camera : Nat

/-- The constructor, line 33: reinterpret_cast of the uintptr_t argument to a
pointer truncates it to the machine word. -/
def CameraModel.make (camera : Nat) : CameraModel :=
  { camera := camera % 2 ^ 64 }

def CameraModel.getCameraObject (m : CameraModel) : Nat := m.camera

def CameraModel.getAEMode (m : CameraModel) : Nat := 0

def CameraModel.getTv (m : CameraModel) : Nat := 0

def CameraModel.getAv (m : CameraModel) : Nat := 0

def CameraModel.getIso (m : CameraModel) : Nat := 0

def CameraModel.getMeteringMode (m : CameraModel) : Nat := 0

def CameraModel.getExposureCompensation (m : CameraModel) : Nat := 0

def CameraModel.getImageQuality (m : CameraModel) : Nat := 0

def CameraModel.getEvfMode (m : CameraModel) : Nat := 0

def CameraModel.getEvfOutputDevice (m : CameraModel) : Nat := 0

def CameraModel.getEvfDepthOfFieldPreview (m : CameraModel) : Nat := 0

def CameraModel.getEvfZoom (m : CameraModel) : Nat := 0

def CameraModel.getEvfZoomPosition (m : CameraModel) : EdsPoint :=
  { x := 0, y := 0 }

def CameraModel.getEvfZoomRect (m : CameraModel) : EdsRect :=
  { point := { x := 0, y := 0 }, size := { width := 0, height := 0 } }

def CameraModel.getEvfAFMode (m : CameraModel) : Nat := 0

def CameraModel.getModelName (m : CameraModel) : String := "Camera"

def CameraModel.getFocusInfo (m : CameraModel) : Nat := 0

def CameraModel.getPropertyDesc (m : CameraModel) (propertyID : Nat) :
    List Nat := []

def CameraModel.setAEMode (m : CameraModel) (value : Nat) : CameraModel := m

def CameraModel.setTv (m : CameraModel) (value : Nat) : CameraModel := m

def CameraModel.setAv (m : CameraModel) (value : Nat) : CameraModel := m

def CameraModel.setIso (m : CameraModel) (value : Nat) : CameraModel := m

def CameraModel.setMeteringMode (m : CameraModel) (value : Nat) : CameraModel := m

def CameraModel.setExposureCompensation (m : CameraModel) (value : Nat) :
    CameraModel := m

def CameraModel.setImageQuality (m : CameraModel) (value : Nat) : CameraModel := m

def CameraModel.setEvfMode (m : CameraModel) (value : Nat) : CameraModel := m

def CameraModel.setEvfOutputDevice (m : CameraModel) (value : Nat) :
    CameraModel := m

def CameraModel.setEvfDepthOfFieldPreview (m : CameraModel) (value : Nat) :
    CameraModel := m

def CameraModel.setEvfZoom (m : CameraModel) (value : Nat) : CameraModel := m

def CameraModel.setEvfZoomPosition (m : CameraModel) (pt : EdsPoint) :
    CameraModel := m

def CameraModel.setEvfZoomRect (m : CameraModel) (rect : EdsRect) :
    CameraModel := m

def CameraModel.setEvfAFMode (m : CameraModel) (value : Nat) : CameraModel := m

def CameraModel.setModelName (m : CameraModel) (modelName : String) :
    CameraModel := m

def CameraModel.setFocusInfo (m : CameraModel) (value : Nat) : CameraModel := m

def CameraModel.setPropertyDesc (m : CameraModel) (propertyID : Nat)
    (desc : List Nat) : CameraModel := m

def CameraModel.addObserver (m : CameraModel) (observer : Nat) : CameraModel := m

def CameraModel.removeObserver (m : CameraModel) (observer : Nat) :
    CameraModel := m

def CameraModel.notifyObservers (m : CameraModel) (event : Option Nat) :
    List (Nat × Option Nat) := []

/-- Every getter of the stub CameraModel, gathered in one tuple, so that one
equation states that an operation left every observable value of the model
unchanged. -/
def CameraModel.observe (m : CameraModel) :
    Nat × Nat × Nat × Nat × Nat × Nat × Nat × Nat × Nat × Nat × Nat × Nat ×
      EdsPoint × EdsRect × Nat × String × Nat × (Nat → List Nat) :=
  (m.getCameraObject, m.getAEMode, m.getTv, m.getAv, m.getIso,
   m.getMeteringMode, m.getExposureCompensation, m.getImageQuality,
   m.getEvfMode, m.getEvfOutputDevice, m.getEvfDepthOfFieldPreview,
   m.getEvfZoom, m.getEvfZoomPosition, m.getEvfZoomRect, m.getEvfAFMode,
   m.getModelName, m.getFocusInfo, m.getPropertyDesc)

/-- Processor of bindings.cpp lines 148 to 156: every member function has an
empty body. Commands are identified by words; run yields the list of commands
it executes. -/
structure Processor

def Processor.setCloseCommand (p : Processor) (cmd : Nat) : Processor := p

def Processor.enqueue (p : Processor) (cmd : Nat) : Processor := p

def Processor.stop (p : Processor) : Processor := p

def Processor.clear (p : Processor) : Processor := p

def Processor.run (p : Processor) : List Nat := []

/-! ### The fifteen stub command classes, bindings.cpp lines 159 to 248
Each constructor discards its arguments (the classes have no members) and each
execute body is only return true. -/

structure TakePictureCommand

def TakePictureCommand.make (model : Nat) : TakePictureCommand := {}

def TakePictureCommand.makeWithPath (model : Nat) (savePath : String) :
    TakePictureCommand := {}

def TakePictureCommand.execute (c : TakePictureCommand) : Bool := true

structure PressShutterButtonCommand

def PressShutterButtonCommand.make (model : Nat) (params : Nat) :
    PressShutterButtonCommand := {}

def PressShutterButtonCommand.execute (c : PressShutterButtonCommand) : Bool := true

structure OpenSessionCommand

def OpenSessionCommand.make (model : Nat) : OpenSessionCommand := {}

def OpenSessionCommand.execute (c : OpenSessionCommand) : Bool := true

structure CloseSessionCommand

def CloseSessionCommand.make (model : Nat) : CloseSessionCommand := {}

def CloseSessionCommand.execute (c : CloseSessionCommand) : Bool := true

structure SaveSettingCommand

def SaveSettingCommand.make (model : Nat) : SaveSettingCommand := {}

def SaveSettingCommand.execute (c : SaveSettingCommand) : Bool := true

structure StartEvfCommand

def StartEvfCommand.make (model : Nat) : StartEvfCommand := {}

def StartEvfCommand.execute (c : StartEvfCommand) : Bool := true

structure EndEvfCommand

def EndEvfCommand.make (model : Nat) : EndEvfCommand := {}

def EndEvfCommand.execute (c : EndEvfCommand) : Bool := true

structure DownloadEvfCommand

def DownloadEvfCommand.make (model : Nat) : DownloadEvfCommand := {}

def DownloadEvfCommand.execute (c : DownloadEvfCommand) : Bool := true

structure DoEvfAFCommand

def DoEvfAFCommand.make (model : Nat) (point : EdsPoint) : DoEvfAFCommand := {}

def DoEvfAFCommand.execute (c : DoEvfAFCommand) : Bool := true

structure DriveLensCommand

def DriveLensCommand.make (model : Nat) (param : Nat) : DriveLensCommand := {}

def DriveLensCommand.execute (c : DriveLensCommand) : Bool := true

structure GetPropertyCommand

def GetPropertyCommand.make (model : Nat) (propertyID : Nat) :
    GetPropertyCommand := {}

def GetPropertyCommand.execute (c : GetPropertyCommand) : Bool := true

structure GetPropertyDescCommand

def GetPropertyDescCommand.make (model : Nat) (propertyID : Nat) :
    GetPropertyDescCommand := {}

def GetPropertyDescCommand.execute (c : GetPropertyDescCommand) : Bool := true

structure SetCapacityCommand

def SetCapacityCommand.make (model : Nat) (capacity : EdsCapacity) :
    SetCapacityCommand := {}

def SetCapacityCommand.execute (c : SetCapacityCommand) : Bool := true

structure NotifyCommand

def NotifyCommand.make (model : Nat) (notification : String) : NotifyCommand := {}

def NotifyCommand.execute (c : NotifyCommand) : Bool := true

structure DownloadCommand

def DownloadCommand.make (model : Nat) (baseRef : Nat) : DownloadCommand := {}

def DownloadCommand.execute (c : DownloadCommand) : Bool := true

end Bindings

/-! ## The vendor command layer, src/edsdk/include/GetPropertyCommand.h -/

namespace Vendor

/-- Modelled from the spec: the closed SDK functions the vendor command calls
(EdsGetPropertySize, EdsGetPropertyData), which the spec describes as an
opaque, closed-source binary the repository cannot inspect. Each function is
an arbitrary oracle from the camera handle and property ID; propSize yields
(error, dataType, dataSize), and the three data readers yield (error, value)
for the three payload types the command dispatches on. -/
structure Sdk where
  propSize : Nat → Nat → Nat × Nat × Nat
  propDataU32 : Nat → Nat → Nat → Nat × Nat
  propDataStr : Nat → Nat → Nat → Nat × String
  propDataFocus : Nat → Nat → Nat → Nat × Nat

/-- Modelled from the spec: the vendor CameraModel that GetPropertyCommand.h
stores into (its header is not among the source files). Per the spec it keeps
the camera handle and the property values the command marshals; focus
information is kept as one opaque word. -/
structure CameraModel where
  camera : Nat
  propsU32 : Nat → Nat
  propsStr : Nat → String
  focus : Nat

/-- Modelled from the spec: setPropertyUInt32 stores a word value under its
property ID. -/
def CameraModel.setPropertyUInt32 (m : CameraModel) (propertyID value : Nat) :
    CameraModel :=
  { m with propsU32 := fun p => if p = propertyID then value else m.propsU32 p }

/-- Modelled from the spec: setPropertyString stores a string value under its
property ID. -/
def CameraModel.setPropertyString (m : CameraModel) (propertyID : Nat)
    (value : String) : CameraModel :=
  { m with propsStr := fun p => if p = propertyID then value else m.propsStr p }

/-- Modelled from the spec: setFocusInfo stores the focus information blob. -/
def CameraModel.setFocusInfo (m : CameraModel) (value : Nat) : CameraModel :=
  { m with focus := value }

/-- One call into the closed SDK, as recorded in a trace: the property size
call or the property data call, each with its property ID. -/
inductive SdkCall where
  | size (propertyID : Nat)
  | data (propertyID : Nat)

/-- Outcome of the getProperty routine: the EdsError it returns, the model it
leaves behind, the observer notifications it issued (in order) and the SDK
calls it made (in order). -/
structure PropResult where
  err : Nat
  model : CameraModel
  events : List CameraEvent
  calls : List SdkCall

/-- GetPropertyCommand.h lines 85 to 159: the body of getProperty once the
kEdsPropID_Unknown test has fallen through. EdsGetPropertySize runs first;
only when it returns EDS_ERR_OK is EdsGetPropertyData called, on the branch
selected by the returned data type; a successful data read is stored into the
model; the PropertyChanged notification fires exactly when the error is still
EDS_ERR_OK at the end. -/
def GetPropertyCommand.getPropertyCore (sdk : Sdk) (m : CameraModel)
    (propertyID : Nat) : PropResult :=
  let s := sdk.propSize m.camera propertyID
  if s.1 = EDS_ERR_OK then
    if s.2.1 = kEdsDataType_UInt32 then
      let d := sdk.propDataU32 m.camera propertyID s.2.2
      if d.1 = EDS_ERR_OK then
        { err := EDS_ERR_OK, model := m.setPropertyUInt32 propertyID d.2,
          events := [{ name := "PropertyChanged", arg := some propertyID }],
          calls := [SdkCall.size propertyID, SdkCall.data propertyID] }
      else
        { err := d.1, model := m, events := [],
          calls := [SdkCall.size propertyID, SdkCall.data propertyID] }
    else if s.2.1 = kEdsDataType_String then
      let d := sdk.propDataStr m.camera propertyID s.2.2
      if d.1 = EDS_ERR_OK then
        { err := EDS_ERR_OK, model := m.setPropertyString propertyID d.2,
          events := [{ name := "PropertyChanged", arg := some propertyID }],
          calls := [SdkCall.size propertyID, SdkCall.data propertyID] }
      else
        { err := d.1, model := m, events := [],
          calls := [SdkCall.size propertyID, SdkCall.data propertyID] }
    else if s.2.1 = kEdsDataType_FocusInfo then
      let d := sdk.propDataFocus m.camera propertyID s.2.2
      if d.1 = EDS_ERR_OK then
        { err := EDS_ERR_OK, model := m.setFocusInfo d.2,
          events := [{ name := "PropertyChanged", arg := some propertyID }],
          calls := [SdkCall.size propertyID, SdkCall.data propertyID] }
      else
        { err := d.1, model := m, events := [],
          calls := [SdkCall.size propertyID, SdkCall.data propertyID] }
    else
      { err := EDS_ERR_OK, model := m,
        events := [{ name := "PropertyChanged", arg := some propertyID }],
        calls := [SdkCall.size propertyID] }
  else
    { err := s.1, model := m, events := [], calls := [SdkCall.size propertyID] }

/-- GetPropertyCommand.h lines 74 to 80: the property IDs the
kEdsPropID_Unknown branch walks through, in source order. -/
def sevenProps : List Nat :=
  [kEdsPropID_AEModeSelect, kEdsPropID_Tv, kEdsPropID_Av, kEdsPropID_ISOSpeed,
   kEdsPropID_MeteringMode, kEdsPropID_ExposureCompensation,
   kEdsPropID_ImageQuality]

/-- One line of the kEdsPropID_Unknown branch: the recursive call runs only
while the accumulated error is still EDS_ERR_OK; its notifications and SDK
calls are appended to those already made. Each recursive call takes a
property ID different from kEdsPropID_Unknown, so it is the core routine. -/
def GetPropertyCommand.chainStep (sdk : Sdk) (st : PropResult) (propertyID : Nat) :
    PropResult :=
  if st.err = EDS_ERR_OK then
    let r := GetPropertyCommand.getPropertyCore sdk st.model propertyID
    { err := r.err, model := r.model, events := st.events ++ r.events,
      calls := st.calls ++ r.calls }
  else st

/-- GetPropertyCommand.h lines 65 to 160: getProperty. On kEdsPropID_Unknown
it walks the seven property IDs, each guarded by the error so far; otherwise
it is the core routine. -/
def GetPropertyCommand.getProperty (sdk : Sdk) (m : CameraModel)
    (propertyID : Nat) : PropResult :=
  if propertyID = kEdsPropID_Unknown then
    List.foldl (GetPropertyCommand.chainStep sdk)
      { err := EDS_ERR_OK, model := m, events := [], calls := [] } sevenProps
  else GetPropertyCommand.getPropertyCore sdk m propertyID

/-- Outcome of GetPropertyCommand execute: its boolean return, the model left
behind, and every observer notification issued (those of getProperty followed
by the error handling ones). -/
structure ExecResult where
  ret : Bool
  model : CameraModel
  events : List CameraEvent
  calls : List SdkCall

/-- GetPropertyCommand.h lines 35 to 62: execute. It runs getProperty; when
the error, masked with EDS_ERRORID_MASK, is EDS_ERR_DEVICE_BUSY it notifies
DeviceBusy and returns false; any other error is notified as an error event
carrying the code, and true is returned. -/
def GetPropertyCommand.execute (sdk : Sdk) (m : CameraModel)
    (propertyID : Nat) : ExecResult :=
  let r := GetPropertyCommand.getProperty sdk m propertyID
  if r.err = EDS_ERR_OK then
    { ret := true, model := r.model, events := r.events, calls := r.calls }
  else if Nat.land r.err EDS_ERRORID_MASK = EDS_ERR_DEVICE_BUSY then
    { ret := false, model := r.model,
      events := r.events ++ [{ name := "DeviceBusy", arg := none }],
      calls := r.calls }
  else
    { ret := true, model := r.model,
      events := r.events ++ [{ name := "error", arg := some r.err }],
      calls := r.calls }

/-- Whether a data type is one of the three that getProperty dispatches on. -/
def typeHandled (dataType : Nat) : Bool :=
  dataType = kEdsDataType_UInt32 || dataType = kEdsDataType_String ||
    dataType = kEdsDataType_FocusInfo

/-- Error component of the EdsGetPropertySize call. -/
def sizeErr (sdk : Sdk) (camera propertyID : Nat) : Nat :=
  (sdk.propSize camera propertyID).1

/-- Data type component of the EdsGetPropertySize call. -/
def sizeType (sdk : Sdk) (camera propertyID : Nat) : Nat :=
  (sdk.propSize camera propertyID).2.1

/-- Data size component of the EdsGetPropertySize call. -/
def sizeLen (sdk : Sdk) (camera propertyID : Nat) : Nat :=
  (sdk.propSize camera propertyID).2.2

/-- The error with which the core getProperty routine finishes for a given
camera handle and property ID: the size error when the size call fails, else
the data error of the dispatched branch, else EDS_ERR_OK for a data type the
routine does not handle. -/
def coreErr (sdk : Sdk) (camera propertyID : Nat) : Nat :=
  if sizeErr sdk camera propertyID = EDS_ERR_OK then
    if sizeType sdk camera propertyID = kEdsDataType_UInt32 then
      (sdk.propDataU32 camera propertyID (sizeLen sdk camera propertyID)).1
    else if sizeType sdk camera propertyID = kEdsDataType_String then
      (sdk.propDataStr camera propertyID (sizeLen sdk camera propertyID)).1
    else if sizeType sdk camera propertyID = kEdsDataType_FocusInfo then
      (sdk.propDataFocus camera propertyID (sizeLen sdk camera propertyID)).1
    else EDS_ERR_OK
  else sizeErr sdk camera propertyID

/-- The property IDs of the EdsGetPropertySize calls in a trace, in order:
one per property the routine attempted to retrieve. -/
def sizeCalls (calls : List SdkCall) : List Nat :=
  calls.filterMap fun c =>
    match c with
    | SdkCall.size p => some p
    | SdkCall.data _ => none

/-- The longest prefix of a property ID list whose core retrievals all finish
with EDS_ERR_OK. -/
def okProps (sdk : Sdk) (camera : Nat) (props : List Nat) : List Nat :=
  props.takeWhile fun p => coreErr sdk camera p == EDS_ERR_OK

/-- The error of the first property of the list whose core retrieval fails,
or EDS_ERR_OK when none fails. -/
def firstErr (sdk : Sdk) (camera : Nat) (props : List Nat) : Nat :=
  match props.dropWhile (fun p => coreErr sdk camera p == EDS_ERR_OK) with
  | [] => EDS_ERR_OK
  | p :: _ => coreErr sdk camera p

end Vendor

/-! ## The combo box handler, src/edsdk/src/EvfAFMode.cpp -/

/-- EvfAFMode.cpp lines 74 to 100: CEvfAFMode update. The result is the list
of window messages the handler posts: WM_USER_PROPERTY_CHANGED when the event
is PropertyChanged with property ID kEdsPropID_Evf_AFMode, and
WM_USER_PROPERTYDESC_CHANGED when the event is PropertyDescChanged with that
property ID. -/
def CEvfAFMode.update (e : CameraEvent) : List Nat :=
  (if e.name = "PropertyChanged" then
    match e.arg with
    | some propertyID =>
      if propertyID = kEdsPropID_Evf_AFMode then [WM_USER_PROPERTY_CHANGED]
      else []
    | none => []
  else []) ++
  (if e.name = "PropertyDescChanged" then
    match e.arg with
    | some propertyID =>
      if propertyID = kEdsPropID_Evf_AFMode then [WM_USER_PROPERTYDESC_CHANGED]
      else []
    | none => []
  else [])

/-! ## Spec-side statements, for the claims the code refutes
These definitions follow the words of the specification, not the source, and
are compared against the source embeddings above. -/

/-- Spec-side reading of claim C1: every property getter of the binding
CameraModel forwards the value the SDK yields for the matching property, for
every SDK behaviour and every camera handle. -/
def gettersForwardSdk : Prop :=
  ∀ (sdk : Vendor.Sdk) (c : Nat),
    (Bindings.CameraModel.make c).getAEMode =
      (sdk.propDataU32 ((Bindings.CameraModel.make c).getCameraObject)
        kEdsPropID_AEMode 4).2 ∧
    (Bindings.CameraModel.make c).getTv =
      (sdk.propDataU32 ((Bindings.CameraModel.make c).getCameraObject)
        kEdsPropID_Tv 4).2 ∧
    (Bindings.CameraModel.make c).getAv =
      (sdk.propDataU32 ((Bindings.CameraModel.make c).getCameraObject)
        kEdsPropID_Av 4).2 ∧
    (Bindings.CameraModel.make c).getIso =
      (sdk.propDataU32 ((Bindings.CameraModel.make c).getCameraObject)
        kEdsPropID_ISOSpeed 4).2 ∧
    (Bindings.CameraModel.make c).getMeteringMode =
      (sdk.propDataU32 ((Bindings.CameraModel.make c).getCameraObject)
        kEdsPropID_MeteringMode 4).2 ∧
    (Bindings.CameraModel.make c).getEvfAFMode =
      (sdk.propDataU32 ((Bindings.CameraModel.make c).getCameraObject)
        kEdsPropID_Evf_AFMode 4).2

/-- An SDK behaviour under which every property reads back as the word 1:
witnesses that the stub getters do not forward the SDK. -/
def sdkConstOne : Vendor.Sdk :=
  { propSize := fun _ _ => (EDS_ERR_OK, kEdsDataType_UInt32, 4),
    propDataU32 := fun _ _ _ => (EDS_ERR_OK, 1),
    propDataStr := fun _ _ _ => (EDS_ERR_OK, ""),
    propDataFocus := fun _ _ _ => (EDS_ERR_OK, 0) }

/-- Spec-side reading of claim C5: the Processor keeps a FIFO command queue
(a run after enqueuing a sequence executes exactly that sequence, in order)
and clear empties it. -/
def processorQueueSpec : Prop :=
  (∀ cmds : List Nat,
    (List.foldl Bindings.Processor.enqueue Bindings.Processor.mk cmds).run =
      cmds) ∧
  (∀ cmds : List Nat,
    ((List.foldl Bindings.Processor.enqueue Bindings.Processor.mk
        cmds).clear).run = [])

/-- Spec-side reading of claim C6: after add_observer with no intervening
remove_observer, notify_observers invokes the update of the added observer
with the event passed, on the Observable class and on CameraModel alike. -/
def observerNotifySpec : Prop :=
  (∀ (o : Bindings.Observable) (observer : Nat) (e : Option Nat),
    (observer, e) ∈ (o.addObserver observer).notifyObservers e) ∧
  (∀ (m : Bindings.CameraModel) (observer : Nat) (e : Option Nat),
    (observer, e) ∈ (m.addObserver observer).notifyObservers e)

/-! ## Helper lemmas about the core property retrieval -/

theorem coreErr_eq (sdk : Vendor.Sdk) (m : Vendor.CameraModel) (pid : Nat) :
    (Vendor.GetPropertyCommand.getPropertyCore sdk m pid).err =
      Vendor.coreErr sdk m.camera pid := by
  by_cases h1 : (sdk.propSize m.camera pid).1 = EDS_ERR_OK
  · by_cases h2 : (sdk.propSize m.camera pid).2.1 = 9
    · by_cases h3 :
          (sdk.propDataU32 m.camera pid (sdk.propSize m.camera pid).2.2).1 =
            EDS_ERR_OK <;>
        simp [kEdsDataType_UInt32, kEdsDataType_String, kEdsDataType_FocusInfo,
          Vendor.GetPropertyCommand.getPropertyCore, Vendor.coreErr,
          Vendor.sizeErr, Vendor.sizeType, Vendor.sizeLen, h1, h2, h3]
    · by_cases h2b : (sdk.propSize m.camera pid).2.1 = 2
      · by_cases h3 :
            (sdk.propDataStr m.camera pid (sdk.propSize m.camera pid).2.2).1 =
              EDS_ERR_OK <;>
          simp [kEdsDataType_UInt32, kEdsDataType_String, kEdsDataType_FocusInfo,
          Vendor.GetPropertyCommand.getPropertyCore, Vendor.coreErr,
            Vendor.sizeErr, Vendor.sizeType, Vendor.sizeLen, h1, h2, h2b, h3]
      · by_cases h2c : (sdk.propSize m.camera pid).2.1 = 101
        · by_cases h3 :
              (sdk.propDataFocus m.camera pid (sdk.propSize m.camera pid).2.2).1 =
                EDS_ERR_OK <;>
            simp [kEdsDataType_UInt32, kEdsDataType_String, kEdsDataType_FocusInfo,
          Vendor.GetPropertyCommand.getPropertyCore, Vendor.coreErr,
              Vendor.sizeErr, Vendor.sizeType, Vendor.sizeLen, h1, h2, h2b, h2c,
              h3]
        · simp [kEdsDataType_UInt32, kEdsDataType_String, kEdsDataType_FocusInfo,
          Vendor.GetPropertyCommand.getPropertyCore, Vendor.coreErr,
            Vendor.sizeErr, Vendor.sizeType, Vendor.sizeLen, h1, h2, h2b, h2c]
  · simp [kEdsDataType_UInt32, kEdsDataType_String, kEdsDataType_FocusInfo,
          Vendor.GetPropertyCommand.getPropertyCore, Vendor.coreErr,
      Vendor.sizeErr, h1]

theorem coreEvents_eq (sdk : Vendor.Sdk) (m : Vendor.CameraModel) (pid : Nat) :
    (Vendor.GetPropertyCommand.getPropertyCore sdk m pid).events =
      (if Vendor.coreErr sdk m.camera pid = EDS_ERR_OK then
        [{ name := "PropertyChanged", arg := some pid }]
      else ([] : List CameraEvent)) := by
  by_cases h1 : (sdk.propSize m.camera pid).1 = EDS_ERR_OK
  · by_cases h2 : (sdk.propSize m.camera pid).2.1 = 9
    · by_cases h3 :
          (sdk.propDataU32 m.camera pid (sdk.propSize m.camera pid).2.2).1 =
            EDS_ERR_OK <;>
        simp [kEdsDataType_UInt32, kEdsDataType_String, kEdsDataType_FocusInfo,
          Vendor.GetPropertyCommand.getPropertyCore, Vendor.coreErr,
          Vendor.sizeErr, Vendor.sizeType, Vendor.sizeLen, h1, h2, h3]
    · by_cases h2b : (sdk.propSize m.camera pid).2.1 = 2
      · by_cases h3 :
            (sdk.propDataStr m.camera pid (sdk.propSize m.camera pid).2.2).1 =
              EDS_ERR_OK <;>
          simp [kEdsDataType_UInt32, kEdsDataType_String, kEdsDataType_FocusInfo,
          Vendor.GetPropertyCommand.getPropertyCore, Vendor.coreErr,
            Vendor.sizeErr, Vendor.sizeType, Vendor.sizeLen, h1, h2, h2b, h3]
      · by_cases h2c : (sdk.propSize m.camera pid).2.1 = 101
        · by_cases h3 :
              (sdk.propDataFocus m.camera pid (sdk.propSize m.camera pid).2.2).1 =
                EDS_ERR_OK <;>
            simp [kEdsDataType_UInt32, kEdsDataType_String, kEdsDataType_FocusInfo,
          Vendor.GetPropertyCommand.getPropertyCore, Vendor.coreErr,
              Vendor.sizeErr, Vendor.sizeType, Vendor.sizeLen, h1, h2, h2b, h2c,
              h3]
        · simp [kEdsDataType_UInt32, kEdsDataType_String, kEdsDataType_FocusInfo,
          Vendor.GetPropertyCommand.getPropertyCore, Vendor.coreErr,
            Vendor.sizeErr, Vendor.sizeType, Vendor.sizeLen, h1, h2, h2b, h2c]
  · simp [kEdsDataType_UInt32, kEdsDataType_String, kEdsDataType_FocusInfo,
          Vendor.GetPropertyCommand.getPropertyCore, Vendor.coreErr,
      Vendor.sizeErr, h1]

theorem coreCalls_eq (sdk : Vendor.Sdk) (m : Vendor.CameraModel) (pid : Nat) :
    (Vendor.GetPropertyCommand.getPropertyCore sdk m pid).calls =
      Vendor.SdkCall.size pid ::
        (if Vendor.sizeErr sdk m.camera pid = EDS_ERR_OK ∧
            Vendor.typeHandled (Vendor.sizeType sdk m.camera pid) = true then
          [Vendor.SdkCall.data pid]
        else []) := by
  by_cases h1 : (sdk.propSize m.camera pid).1 = EDS_ERR_OK
  · by_cases h2 : (sdk.propSize m.camera pid).2.1 = 9
    · by_cases h3 :
          (sdk.propDataU32 m.camera pid (sdk.propSize m.camera pid).2.2).1 =
            EDS_ERR_OK <;>
        simp [kEdsDataType_UInt32, kEdsDataType_String, kEdsDataType_FocusInfo,
          Vendor.GetPropertyCommand.getPropertyCore, Vendor.typeHandled,
          Vendor.sizeErr, Vendor.sizeType, h1, h2, h3]
    · by_cases h2b : (sdk.propSize m.camera pid).2.1 = 2
      · by_cases h3 :
            (sdk.propDataStr m.camera pid (sdk.propSize m.camera pid).2.2).1 =
              EDS_ERR_OK <;>
          simp [kEdsDataType_UInt32, kEdsDataType_String, kEdsDataType_FocusInfo,
          Vendor.GetPropertyCommand.getPropertyCore, Vendor.typeHandled,
            Vendor.sizeErr, Vendor.sizeType, h1, h2, h2b, h3]
      · by_cases h2c : (sdk.propSize m.camera pid).2.1 = 101
        · by_cases h3 :
              (sdk.propDataFocus m.camera pid (sdk.propSize m.camera pid).2.2).1 =
                EDS_ERR_OK <;>
            simp [kEdsDataType_UInt32, kEdsDataType_String, kEdsDataType_FocusInfo,
          Vendor.GetPropertyCommand.getPropertyCore, Vendor.typeHandled,
              Vendor.sizeErr, Vendor.sizeType, h1, h2, h2b, h2c, h3]
        · simp [kEdsDataType_UInt32, kEdsDataType_String, kEdsDataType_FocusInfo,
          Vendor.GetPropertyCommand.getPropertyCore, Vendor.typeHandled,
            Vendor.sizeErr, Vendor.sizeType, h1, h2, h2b, h2c]
  · simp [kEdsDataType_UInt32, kEdsDataType_String, kEdsDataType_FocusInfo,
          Vendor.GetPropertyCommand.getPropertyCore, Vendor.typeHandled,
      Vendor.sizeErr, h1]

theorem coreModel_eq (sdk : Vendor.Sdk) (m : Vendor.CameraModel) (pid : Nat) :
    (Vendor.GetPropertyCommand.getPropertyCore sdk m pid).model =
      (if Vendor.sizeErr sdk m.camera pid = EDS_ERR_OK then
        if Vendor.sizeType sdk m.camera pid = kEdsDataType_UInt32 then
          if (sdk.propDataU32 m.camera pid (Vendor.sizeLen sdk m.camera pid)).1 =
              EDS_ERR_OK then
            m.setPropertyUInt32 pid
              (sdk.propDataU32 m.camera pid (Vendor.sizeLen sdk m.camera pid)).2
          else m
        else if Vendor.sizeType sdk m.camera pid = kEdsDataType_String then
          if (sdk.propDataStr m.camera pid (Vendor.sizeLen sdk m.camera pid)).1 =
              EDS_ERR_OK then
            m.setPropertyString pid
              (sdk.propDataStr m.camera pid (Vendor.sizeLen sdk m.camera pid)).2
          else m
        else if Vendor.sizeType sdk m.camera pid = kEdsDataType_FocusInfo then
          if (sdk.propDataFocus m.camera pid (Vendor.sizeLen sdk m.camera pid)).1 =
              EDS_ERR_OK then
            m.setFocusInfo
              (sdk.propDataFocus m.camera pid (Vendor.sizeLen sdk m.camera pid)).2
          else m
        else m
      else m) := by
  by_cases h1 : (sdk.propSize m.camera pid).1 = EDS_ERR_OK
  · by_cases h2 : (sdk.propSize m.camera pid).2.1 = 9
    · by_cases h3 :
          (sdk.propDataU32 m.camera pid (sdk.propSize m.camera pid).2.2).1 =
            EDS_ERR_OK <;>
        simp [kEdsDataType_UInt32, kEdsDataType_String, kEdsDataType_FocusInfo,
          Vendor.GetPropertyCommand.getPropertyCore, Vendor.sizeErr,
          Vendor.sizeType, Vendor.sizeLen, h1, h2, h3]
    · by_cases h2b : (sdk.propSize m.camera pid).2.1 = 2
      · by_cases h3 :
            (sdk.propDataStr m.camera pid (sdk.propSize m.camera pid).2.2).1 =
              EDS_ERR_OK <;>
          simp [kEdsDataType_UInt32, kEdsDataType_String, kEdsDataType_FocusInfo,
          Vendor.GetPropertyCommand.getPropertyCore, Vendor.sizeErr,
            Vendor.sizeType, Vendor.sizeLen, h1, h2, h2b, h3]
      · by_cases h2c : (sdk.propSize m.camera pid).2.1 = 101
        · by_cases h3 :
              (sdk.propDataFocus m.camera pid (sdk.propSize m.camera pid).2.2).1 =
                EDS_ERR_OK <;>
            simp [kEdsDataType_UInt32, kEdsDataType_String, kEdsDataType_FocusInfo,
          Vendor.GetPropertyCommand.getPropertyCore, Vendor.sizeErr,
              Vendor.sizeType, Vendor.sizeLen, h1, h2, h2b, h2c, h3]
        · simp [kEdsDataType_UInt32, kEdsDataType_String, kEdsDataType_FocusInfo,
          Vendor.GetPropertyCommand.getPropertyCore, Vendor.sizeErr,
            Vendor.sizeType, Vendor.sizeLen, h1, h2, h2b, h2c]
  · simp [kEdsDataType_UInt32, kEdsDataType_String, kEdsDataType_FocusInfo,
          Vendor.GetPropertyCommand.getPropertyCore, Vendor.sizeErr, h1]

theorem coreModel_camera (sdk : Vendor.Sdk) (m : Vendor.CameraModel) (pid : Nat) :
    (Vendor.GetPropertyCommand.getPropertyCore sdk m pid).model.camera =
      m.camera := by
  rw [coreModel_eq]
  split
  · split
    · split <;> rfl
    · split
      · split <;> rfl
      · split
        · split <;> rfl
        · rfl
  · rfl

theorem coreSizeCalls (sdk : Vendor.Sdk) (m : Vendor.CameraModel) (pid : Nat) :
    Vendor.sizeCalls (Vendor.GetPropertyCommand.getPropertyCore sdk m pid).calls =
      [pid] := by
  rw [coreCalls_eq]
  split <;> simp [Vendor.sizeCalls]

theorem firstErr_cons_ok (sdk : Vendor.Sdk) (cam p : Nat) (ps : List Nat)
    (h : Vendor.coreErr sdk cam p = EDS_ERR_OK) :
    Vendor.firstErr sdk cam (p :: ps) = Vendor.firstErr sdk cam ps := by
  have hb : (Vendor.coreErr sdk cam p == EDS_ERR_OK) = true := by simp [h]
  simp [Vendor.firstErr, List.dropWhile, hb]

theorem firstErr_cons_fail (sdk : Vendor.Sdk) (cam p : Nat) (ps : List Nat)
    (h : ¬Vendor.coreErr sdk cam p = EDS_ERR_OK) :
    Vendor.firstErr sdk cam (p :: ps) = Vendor.coreErr sdk cam p := by
  have hb : (Vendor.coreErr sdk cam p == EDS_ERR_OK) = false := by simp [h]
  simp [Vendor.firstErr, List.dropWhile, hb]

theorem okProps_cons_ok (sdk : Vendor.Sdk) (cam p : Nat) (ps : List Nat)
    (h : Vendor.coreErr sdk cam p = EDS_ERR_OK) :
    Vendor.okProps sdk cam (p :: ps) = p :: Vendor.okProps sdk cam ps := by
  have hb : (Vendor.coreErr sdk cam p == EDS_ERR_OK) = true := by simp [h]
  simp [Vendor.okProps, List.takeWhile_cons, hb]

theorem okProps_cons_fail (sdk : Vendor.Sdk) (cam p : Nat) (ps : List Nat)
    (h : ¬Vendor.coreErr sdk cam p = EDS_ERR_OK) :
    Vendor.okProps sdk cam (p :: ps) = [] := by
  have hb : (Vendor.coreErr sdk cam p == EDS_ERR_OK) = false := by simp [h]
  simp [Vendor.okProps, List.takeWhile_cons, hb]

theorem sizeCalls_append (a b : List Vendor.SdkCall) :
    Vendor.sizeCalls (a ++ b) = Vendor.sizeCalls a ++ Vendor.sizeCalls b := by
  simp [Vendor.sizeCalls, List.filterMap_append]

theorem foldl_chain_stuck (sdk : Vendor.Sdk) (ps : List Nat)
    (st : Vendor.PropResult) (h : ¬st.err = EDS_ERR_OK) :
    List.foldl (Vendor.GetPropertyCommand.chainStep sdk) st ps = st := by
  induction ps with
  | nil => rfl
  | cons p ps ih =>
    rw [List.foldl_cons]
    have hstep : Vendor.GetPropertyCommand.chainStep sdk st p = st := by
      simp [Vendor.GetPropertyCommand.chainStep, h]
    rw [hstep]
    exact ih

theorem foldl_chain_spec (sdk : Vendor.Sdk) (ps : List Nat) :
    ∀ (m : Vendor.CameraModel) (evs : List CameraEvent)
      (cs : List Vendor.SdkCall),
      (List.foldl (Vendor.GetPropertyCommand.chainStep sdk)
          { err := EDS_ERR_OK, model := m, events := evs, calls := cs } ps).err =
        Vendor.firstErr sdk m.camera ps ∧
      (List.foldl (Vendor.GetPropertyCommand.chainStep sdk)
          { err := EDS_ERR_OK, model := m, events := evs, calls := cs }
          ps).events =
        evs ++ (Vendor.okProps sdk m.camera ps).map
          (fun p => { name := "PropertyChanged", arg := some p }) ∧
      Vendor.sizeCalls (List.foldl (Vendor.GetPropertyCommand.chainStep sdk)
          { err := EDS_ERR_OK, model := m, events := evs, calls := cs }
          ps).calls =
        Vendor.sizeCalls cs ++
          ps.take ((Vendor.okProps sdk m.camera ps).length + 1) ∧
      (List.foldl (Vendor.GetPropertyCommand.chainStep sdk)
          { err := EDS_ERR_OK, model := m, events := evs, calls := cs }
          ps).model.camera = m.camera := by
  induction ps with
  | nil =>
    intro m evs cs
    simp [Vendor.firstErr, Vendor.okProps]
  | cons p ps ih =>
    intro m evs cs
    rw [List.foldl_cons]
    have hstep : Vendor.GetPropertyCommand.chainStep sdk
        { err := EDS_ERR_OK, model := m, events := evs, calls := cs } p =
        { err := Vendor.coreErr sdk m.camera p,
          model := (Vendor.GetPropertyCommand.getPropertyCore sdk m p).model,
          events :=
            evs ++ (Vendor.GetPropertyCommand.getPropertyCore sdk m p).events,
          calls :=
            cs ++ (Vendor.GetPropertyCommand.getPropertyCore sdk m p).calls } := by
      simp [Vendor.GetPropertyCommand.chainStep, coreErr_eq]
    rw [hstep]
    have hcam := coreModel_camera sdk m p
    have hev := coreEvents_eq sdk m p
    have hsz := coreSizeCalls sdk m p
    by_cases h : Vendor.coreErr sdk m.camera p = EDS_ERR_OK
    · rw [h]
      obtain ⟨ih1, ih2, ih3, ih4⟩ :=
        ih (Vendor.GetPropertyCommand.getPropertyCore sdk m p).model
          (evs ++ (Vendor.GetPropertyCommand.getPropertyCore sdk m p).events)
          (cs ++ (Vendor.GetPropertyCommand.getPropertyCore sdk m p).calls)
      rw [hcam] at ih1 ih2 ih3 ih4
      simp only [h, if_pos] at hev
      refine ⟨?_, ?_, ?_, ?_⟩
      · rw [ih1, firstErr_cons_ok sdk m.camera p ps h]
      · rw [ih2, hev, okProps_cons_ok sdk m.camera p ps h]
        simp
      · rw [ih3, sizeCalls_append, hsz, okProps_cons_ok sdk m.camera p ps h]
        simp [List.take_succ_cons]
      · rw [ih4]
    · simp only [h, if_neg] at hev
      rw [foldl_chain_stuck sdk ps
        { err := Vendor.coreErr sdk m.camera p,
          model := (Vendor.GetPropertyCommand.getPropertyCore sdk m p).model,
          events :=
            evs ++ (Vendor.GetPropertyCommand.getPropertyCore sdk m p).events,
          calls :=
            cs ++ (Vendor.GetPropertyCommand.getPropertyCore sdk m p).calls } h]
      refine ⟨?_, ?_, ?_, ?_⟩
      · exact (firstErr_cons_fail sdk m.camera p ps h).symm
      · simp [hev, okProps_cons_fail sdk m.camera p ps h]
      · rw [okProps_cons_fail sdk m.camera p ps h]
        simp only [List.length_nil, Nat.zero_add, List.take_succ_cons,
          List.take_zero]
        show Vendor.sizeCalls
            (cs ++ (Vendor.GetPropertyCommand.getPropertyCore sdk m p).calls) =
          Vendor.sizeCalls cs ++ [p]
        rw [sizeCalls_append, hsz]
      · exact hcam

/-! ## The claims -/

/-- Claim C1, counterexample: the stubbed binding variant does not forward the
SDK value through its property getters. Under the concrete SDK behaviour
sdkConstOne, every property reads back as 1 from the SDK, yet the getter of
the model built on camera handle 0 yields 0. -/
theorem claimC1_counterexample : ¬gettersForwardSdk := by
  intro h
  exact absurd (h sdkConstOne 0).1 (by decide)

/-- Claim C1, amended: in the stubbed bindings.cpp variant the CameraModel
property getters return fixed constants (0, zeroed structs, the string Camera,
an empty list), for every camera handle, not values obtained from the SDK. -/
theorem claimC1_stub_getters_constant (c : Nat) :
    (Bindings.CameraModel.make c).getAEMode = 0 ∧
    (Bindings.CameraModel.make c).getTv = 0 ∧
    (Bindings.CameraModel.make c).getAv = 0 ∧
    (Bindings.CameraModel.make c).getIso = 0 ∧
    (Bindings.CameraModel.make c).getMeteringMode = 0 ∧
    (Bindings.CameraModel.make c).getExposureCompensation = 0 ∧
    (Bindings.CameraModel.make c).getImageQuality = 0 ∧
    (Bindings.CameraModel.make c).getEvfMode = 0 ∧
    (Bindings.CameraModel.make c).getEvfOutputDevice = 0 ∧
    (Bindings.CameraModel.make c).getEvfDepthOfFieldPreview = 0 ∧
    (Bindings.CameraModel.make c).getEvfZoom = 0 ∧
    (Bindings.CameraModel.make c).getEvfZoomPosition = { x := 0, y := 0 } ∧
    (Bindings.CameraModel.make c).getEvfZoomRect =
      { point := { x := 0, y := 0 }, size := { width := 0, height := 0 } } ∧
    (Bindings.CameraModel.make c).getEvfAFMode = 0 ∧
    (Bindings.CameraModel.make c).getModelName = "Camera" ∧
    (Bindings.CameraModel.make c).getFocusInfo = 0 ∧
    ∀ pid : Nat, (Bindings.CameraModel.make c).getPropertyDesc pid = [] :=
  ⟨rfl, rfl, rfl, rfl, rfl, rfl, rfl, rfl, rfl, rfl, rfl, rfl, rfl, rfl, rfl,
   rfl, fun _ => rfl⟩

/-- Claim C2: in the stubbed bindings variant, execute of each of the fifteen
camera command classes returns true unconditionally, for every model handle
and every constructor argument; the classes hold no state, so the call is a
no-op. -/
theorem claimC2_stub_commands (model : Nat) (savePath : String) (params : Nat)
    (pt : EdsPoint) (cap : EdsCapacity) (notification : String)
    (baseRef : Nat) (pid : Nat) :
    (Bindings.TakePictureCommand.make model).execute = true ∧
    (Bindings.TakePictureCommand.makeWithPath model savePath).execute = true ∧
    (Bindings.PressShutterButtonCommand.make model params).execute = true ∧
    (Bindings.OpenSessionCommand.make model).execute = true ∧
    (Bindings.CloseSessionCommand.make model).execute = true ∧
    (Bindings.SaveSettingCommand.make model).execute = true ∧
    (Bindings.StartEvfCommand.make model).execute = true ∧
    (Bindings.EndEvfCommand.make model).execute = true ∧
    (Bindings.DownloadEvfCommand.make model).execute = true ∧
    (Bindings.DoEvfAFCommand.make model pt).execute = true ∧
    (Bindings.DriveLensCommand.make model params).execute = true ∧
    (Bindings.GetPropertyCommand.make model pid).execute = true ∧
    (Bindings.GetPropertyDescCommand.make model pid).execute = true ∧
    (Bindings.SetCapacityCommand.make model cap).execute = true ∧
    (Bindings.NotifyCommand.make model notification).execute = true ∧
    (Bindings.DownloadCommand.make model baseRef).execute = true :=
  ⟨rfl, rfl, rfl, rfl, rfl, rfl, rfl, rfl, rfl, rfl, rfl, rfl, rfl, rfl, rfl,
   rfl⟩

/-- Claim C3: the property retrieval of GetPropertyCommand calls
EdsGetPropertySize first and EdsGetPropertyData only after it succeeded with a
dispatched data type; the retrieved value is stored into the model by the
setter matching the data type; the PropertyChanged notification carrying the
property ID is issued exactly when no step returned an error. -/
theorem claimC3_getProperty_steps (sdk : Vendor.Sdk) (m : Vendor.CameraModel)
    (pid : Nat) :
    (Vendor.GetPropertyCommand.getPropertyCore sdk m pid).calls =
      Vendor.SdkCall.size pid ::
        (if Vendor.sizeErr sdk m.camera pid = EDS_ERR_OK ∧
            Vendor.typeHandled (Vendor.sizeType sdk m.camera pid) = true then
          [Vendor.SdkCall.data pid]
        else []) ∧
    (Vendor.GetPropertyCommand.getPropertyCore sdk m pid).err =
      Vendor.coreErr sdk m.camera pid ∧
    (Vendor.GetPropertyCommand.getPropertyCore sdk m pid).model =
      (if Vendor.sizeErr sdk m.camera pid = EDS_ERR_OK then
        if Vendor.sizeType sdk m.camera pid = kEdsDataType_UInt32 then
          if (sdk.propDataU32 m.camera pid (Vendor.sizeLen sdk m.camera pid)).1 =
              EDS_ERR_OK then
            m.setPropertyUInt32 pid
              (sdk.propDataU32 m.camera pid (Vendor.sizeLen sdk m.camera pid)).2
          else m
        else if Vendor.sizeType sdk m.camera pid = kEdsDataType_String then
          if (sdk.propDataStr m.camera pid (Vendor.sizeLen sdk m.camera pid)).1 =
              EDS_ERR_OK then
            m.setPropertyString pid
              (sdk.propDataStr m.camera pid (Vendor.sizeLen sdk m.camera pid)).2
          else m
        else if Vendor.sizeType sdk m.camera pid = kEdsDataType_FocusInfo then
          if (sdk.propDataFocus m.camera pid
              (Vendor.sizeLen sdk m.camera pid)).1 = EDS_ERR_OK then
            m.setFocusInfo
              (sdk.propDataFocus m.camera pid (Vendor.sizeLen sdk m.camera pid)).2
          else m
        else m
      else m) ∧
    (Vendor.GetPropertyCommand.getPropertyCore sdk m pid).events =
      (if Vendor.coreErr sdk m.camera pid = EDS_ERR_OK then
        [{ name := "PropertyChanged", arg := some pid }]
      else ([] : List CameraEvent)) :=
  ⟨coreCalls_eq sdk m pid, coreErr_eq sdk m pid, coreModel_eq sdk m pid,
   coreEvents_eq sdk m pid⟩

/-- Claim C4: execute of GetPropertyCommand returns false exactly when the
retrieval error masked with EDS_ERRORID_MASK equals EDS_ERR_DEVICE_BUSY, in
which case a DeviceBusy event is appended; any other error appends an error
event carrying the code while execute returns true; on success it returns
true and appends no error notification; the model is whatever getProperty
left behind. -/
theorem claimC4_execute_error_handling (sdk : Vendor.Sdk)
    (m : Vendor.CameraModel) (pid : Nat) :
    ((Vendor.GetPropertyCommand.execute sdk m pid).ret = false ↔
      Nat.land (Vendor.GetPropertyCommand.getProperty sdk m pid).err
        EDS_ERRORID_MASK = EDS_ERR_DEVICE_BUSY) ∧
    (Vendor.GetPropertyCommand.execute sdk m pid).events =
      (Vendor.GetPropertyCommand.getProperty sdk m pid).events ++
        (if (Vendor.GetPropertyCommand.getProperty sdk m pid).err = EDS_ERR_OK
         then []
         else if Nat.land (Vendor.GetPropertyCommand.getProperty sdk m pid).err
             EDS_ERRORID_MASK = EDS_ERR_DEVICE_BUSY then
           [{ name := "DeviceBusy", arg := none }]
         else
           [{ name := "error",
              arg := some (Vendor.GetPropertyCommand.getProperty sdk m pid).err }]) ∧
    (Vendor.GetPropertyCommand.execute sdk m pid).model =
      (Vendor.GetPropertyCommand.getProperty sdk m pid).model := by
  by_cases h1 :
      (Vendor.GetPropertyCommand.getProperty sdk m pid).err = EDS_ERR_OK
  · refine ⟨?_, ?_, ?_⟩ <;>
      simp [Vendor.GetPropertyCommand.execute, h1, EDS_ERR_DEVICE_BUSY]
    decide
  · by_cases h2 :
        Nat.land (Vendor.GetPropertyCommand.getProperty sdk m pid).err
          EDS_ERRORID_MASK = EDS_ERR_DEVICE_BUSY
    · refine ⟨?_, ?_, ?_⟩ <;>
        simp [Vendor.GetPropertyCommand.execute, h1, h2]
    · refine ⟨?_, ?_, ?_⟩ <;>
        simp [Vendor.GetPropertyCommand.execute, h1, h2]

/-- Claim C5, counterexample: the stub Processor keeps no queue, so a run
after enqueuing the single command 1 executes nothing rather than that
command. -/
theorem claimC5_counterexample : ¬processorQueueSpec := by
  intro h
  exact absurd (h.1 [1]) (by decide)

/-- Claim C5, amended: in the stubbed bindings variant, enqueue and clear
leave the Processor unchanged and run executes no command at all, whatever
was enqueued before; in particular nothing enqueued before a clear is ever
executed. -/
theorem claimC5_stub_processor (p : Bindings.Processor) (cmd : Nat)
    (cmds : List Nat) :
    p.enqueue cmd = p ∧
    p.clear = p ∧
    (List.foldl Bindings.Processor.enqueue p cmds).run = [] ∧
    ((List.foldl Bindings.Processor.enqueue p cmds).clear).run = [] :=
  ⟨rfl, rfl, rfl, rfl⟩

/-- Claim C6, counterexample: the stub Observable never invokes an observer:
after add_observer of observer 0, notify_observers performs no update
invocation at all, so the required invocation is absent. -/
theorem claimC6_counterexample : ¬observerNotifySpec := by
  intro h
  exact absurd (h.1 Bindings.Observable.mk 0 none) (by decide)

/-- Claim C6, amended: in the stubbed bindings variant, add_observer and
remove_observer leave Observable and CameraModel unchanged and
notify_observers performs no update invocation at all; in particular a
removed observer is never notified (vacuously). -/
theorem claimC6_stub_observers (o : Bindings.Observable)
    (m : Bindings.CameraModel) (observer : Nat) (e : Option Nat) :
    o.addObserver observer = o ∧
    o.removeObserver observer = o ∧
    o.notifyObservers e = [] ∧
    m.addObserver observer = m ∧
    m.removeObserver observer = m ∧
    m.notifyObservers e = [] :=
  ⟨rfl, rfl, rfl, rfl, rfl, rfl⟩

/-- Claim C7: in the stubbed bindings variant, every property setter of
CameraModel leaves every observable value of the model unchanged: the tuple
of all getter results is the same after the setter call as before it. -/
theorem claimC7_setters_frame (m : Bindings.CameraModel) (v : Nat)
    (pt : EdsPoint) (rect : EdsRect) (modelName : String) (pid : Nat)
    (desc : List Nat) :
    (m.setAEMode v).observe = m.observe ∧
    (m.setTv v).observe = m.observe ∧
    (m.setAv v).observe = m.observe ∧
    (m.setIso v).observe = m.observe ∧
    (m.setMeteringMode v).observe = m.observe ∧
    (m.setExposureCompensation v).observe = m.observe ∧
    (m.setImageQuality v).observe = m.observe ∧
    (m.setEvfMode v).observe = m.observe ∧
    (m.setEvfOutputDevice v).observe = m.observe ∧
    (m.setEvfDepthOfFieldPreview v).observe = m.observe ∧
    (m.setEvfZoom v).observe = m.observe ∧
    (m.setEvfZoomPosition pt).observe = m.observe ∧
    (m.setEvfZoomRect rect).observe = m.observe ∧
    (m.setEvfAFMode v).observe = m.observe ∧
    (m.setModelName modelName).observe = m.observe ∧
    (m.setFocusInfo v).observe = m.observe ∧
    (m.setPropertyDesc pid desc).observe = m.observe :=
  ⟨rfl, rfl, rfl, rfl, rfl, rfl, rfl, rfl, rfl, rfl, rfl, rfl, rfl, rfl, rfl,
   rfl, rfl⟩

/-- Claim C8: for every machine-word value c, building a CameraModel on
camera handle c and reading it back through get_camera_object yields c: the
two reinterpret_cast conversions form a round trip. -/
theorem claimC8_camera_roundtrip (c : Nat) (h : c < 2 ^ 64) :
    (Bindings.CameraModel.make c).getCameraObject = c :=
  Nat.mod_eq_of_lt h

/-- Claim C8, witness: the round trip at the concrete handle 123456789. -/
theorem claimC8_camera_roundtrip_witness :
    (Bindings.CameraModel.make 123456789).getCameraObject = 123456789 :=
  claimC8_camera_roundtrip 123456789 (by norm_num)

/-- Claim C9: the update handler of CEvfAFMode posts WM_USER_PROPERTY_CHANGED
exactly on a PropertyChanged event whose argument is kEdsPropID_Evf_AFMode,
posts WM_USER_PROPERTYDESC_CHANGED exactly on a PropertyDescChanged event
with that argument, and posts nothing in every other case. -/
theorem claimC9_evf_af_mode_update (e : CameraEvent) :
    (WM_USER_PROPERTY_CHANGED ∈ CEvfAFMode.update e ↔
      e.name = "PropertyChanged" ∧ e.arg = some kEdsPropID_Evf_AFMode) ∧
    (WM_USER_PROPERTYDESC_CHANGED ∈ CEvfAFMode.update e ↔
      e.name = "PropertyDescChanged" ∧ e.arg = some kEdsPropID_Evf_AFMode) ∧
    (CEvfAFMode.update e = [] ↔
      ¬(e.name = "PropertyChanged" ∧ e.arg = some kEdsPropID_Evf_AFMode) ∧
      ¬(e.name = "PropertyDescChanged" ∧ e.arg = some kEdsPropID_Evf_AFMode)) := by
  obtain ⟨nm, arg⟩ := e
  by_cases h1 : nm = "PropertyChanged"
  · subst h1
    cases arg with
    | none =>
      simp [CEvfAFMode.update, WM_USER_PROPERTY_CHANGED,
        WM_USER_PROPERTYDESC_CHANGED, WM_APP]
    | some pid =>
      by_cases h3 : pid = kEdsPropID_Evf_AFMode <;>
        simp [CEvfAFMode.update, WM_USER_PROPERTY_CHANGED,
          WM_USER_PROPERTYDESC_CHANGED, WM_APP, h3]
  · by_cases h2 : nm = "PropertyDescChanged"
    · subst h2
      cases arg with
      | none =>
        simp [CEvfAFMode.update, WM_USER_PROPERTY_CHANGED,
          WM_USER_PROPERTYDESC_CHANGED, WM_APP]
      | some pid =>
        by_cases h3 : pid = kEdsPropID_Evf_AFMode <;>
          simp [CEvfAFMode.update, WM_USER_PROPERTY_CHANGED,
            WM_USER_PROPERTYDESC_CHANGED, WM_APP, h3]
    · cases arg with
      | none => simp [CEvfAFMode.update, h1, h2]
      | some pid => simp [CEvfAFMode.update, h1, h2]

/-- Claim C10: on kEdsPropID_Unknown, getProperty walks the seven fixed
property IDs in source order: the retrieval error is that of the first
property whose retrieval fails (EDS_ERR_OK when all seven succeed), a
PropertyChanged notification is issued for exactly the successful prefix in
order, and the SDK is consulted only for the properties up to and including
the first failing one. -/
theorem claimC10_unknown_sequence (sdk : Vendor.Sdk)
    (m : Vendor.CameraModel) :
    (Vendor.GetPropertyCommand.getProperty sdk m kEdsPropID_Unknown).err =
      Vendor.firstErr sdk m.camera Vendor.sevenProps ∧
    (Vendor.GetPropertyCommand.getProperty sdk m kEdsPropID_Unknown).events =
      (Vendor.okProps sdk m.camera Vendor.sevenProps).map
        (fun p => { name := "PropertyChanged", arg := some p }) ∧
    Vendor.sizeCalls
        (Vendor.GetPropertyCommand.getProperty sdk m kEdsPropID_Unknown).calls =
      Vendor.sevenProps.take
        ((Vendor.okProps sdk m.camera Vendor.sevenProps).length + 1) := by
  obtain ⟨h1, h2, h3, h4⟩ := foldl_chain_spec sdk Vendor.sevenProps m [] []
  refine ⟨?_, ?_, ?_⟩
  · simpa [Vendor.GetPropertyCommand.getProperty] using h1
  · simpa [Vendor.GetPropertyCommand.getProperty] using h2
  · simpa [Vendor.GetPropertyCommand.getProperty, Vendor.sizeCalls] using h3

end CannonWrapper

